import Mathlib

/-!
Shallow embedding of the custom-title-bar window procedure from
`src/main.rs` (win32-window-custom-titlebar).

Machine integers (`i32`, `isize`) are modelled as `Int`; `u32` (the DPI)
as `Nat`.  Host queries that can fail (`GetWindowPlacement`,
`OpenThemeData`/`GetThemePartSize`/`GetClientRect`) are modelled as
`Except Unit _` inputs to the handler functions.  `ScreenToClient`
conversion is modelled by handing the handlers the already-converted
client-coordinate point.  The Win32 `RECT` and `POINT` structures become
`Rect` and `Point` below.
-/

namespace Win32

/-- The Win32 `RECT`: four `i32` edges (left, top, right, bottom). -/
structure Rect where
  left : Int
  top : Int
  right : Int
  bottom : Int
deriving Repr, DecidableEq

/-- The Win32 `POINT`. -/
structure Point where
  x : Int
  y : Int
deriving Repr, DecidableEq

/-- From `win32_dpi_scale` in src/main.rs:
`(value as f32 * dpi as f32 / DEFAULT_DPI) as i32` with `DEFAULT_DPI = 96.0`.
Rust's `as i32` on a float truncates toward zero.  This embedding computes the
exact rational `value * dpi / 96` truncated toward zero (`Int.tdiv`), which
agrees with the source's `f32` computation exactly when `|value * dpi| ≤ 2^24`:
there the factors and the product are exactly representable, the quotient is
below `2^18` so its rounding error is under `2^-7`, and a non-integer exact
quotient is at least `1/96 > 2^-7` away from every other integer, so the
truncation is unchanged by the rounding.  Beyond that bound the source's `f32`
arithmetic rounds (for example the source yields `2^24` at value `2^24 + 1`,
dpi 96) and this definition does not model it; theorems quantifying over the
domain therefore carry the bound as a hypothesis, and concrete inputs (such as
the metric values 10, 32, 47 at realistic DPIs) lie well inside it. -/
def win32_dpi_scale (value : Int) (dpi : Nat) : Int :=
  Int.tdiv (value * (dpi : Int)) 96

/-- Constant `TOP_N_BOTTOM_BORDERS_SIZE` (1 pixel border on top and 1 on bottom). -/
def TOP_N_BOTTOM_BORDERS_SIZE : Int := 2

/-- Constant `WIN32_FAKE_SHADOW_HEIGHT`. -/
def WIN32_FAKE_SHADOW_HEIGHT : Int := 1

/-- From `win32_titlebar_rect` in src/main.rs.  The host queries (theme
caption size, window DPI, client rectangle) are passed in as the arguments
`client`, `dpi`, `caption_cy`; the function returns the client rectangle with
`bottom` replaced by `top + (scaled caption height + 2)`. -/
def win32_titlebar_rect (client : Rect) (dpi : Nat) (caption_cy : Int) : Rect :=
  let height := win32_dpi_scale caption_cy dpi + TOP_N_BOTTOM_BORDERS_SIZE
  { client with bottom := client.top + height }

/-- From `win32_fake_shadow_rect` in src/main.rs: the client rectangle with
`bottom` replaced by `top + WIN32_FAKE_SHADOW_HEIGHT`. -/
def win32_fake_shadow_rect (client : Rect) : Rect :=
  { client with bottom := client.top + WIN32_FAKE_SHADOW_HEIGHT }

/-- The `CustomTitleBarButtonRects` struct from src/main.rs. -/
structure CustomTitleBarButtonRects where
  close : Rect
  maximize : Rect
  minimize : Rect
deriving Repr, DecidableEq

/-- The `CustomTitleBarHoveredButton` enum from src/main.rs (discriminants
0, 1, 2, 3 in declaration order). -/
inductive CustomTitleBarHoveredButton where
  | None
  | Minimize
  | Maximize
  | Close
deriving Repr, DecidableEq

/-- The `From<isize> for CustomTitleBarHoveredButton` impl from src/main.rs:
1, 2, 3 decode to Minimize, Maximize, Close and every other value to None. -/
def hoveredButtonFromIsize (item : Int) : CustomTitleBarHoveredButton :=
  if item = 1 then CustomTitleBarHoveredButton.Minimize
  else if item = 2 then CustomTitleBarHoveredButton.Maximize
  else if item = 3 then CustomTitleBarHoveredButton.Close
  else CustomTitleBarHoveredButton.None

/-- The integer a variant is stored as in the `GWLP_USERDATA` slot
(`new_hovered_button as _` in src/main.rs): the Rust enum's discriminant. -/
def hoveredButtonToIsize : CustomTitleBarHoveredButton → Int
  | CustomTitleBarHoveredButton.None => 0
  | CustomTitleBarHoveredButton.Minimize => 1
  | CustomTitleBarHoveredButton.Maximize => 2
  | CustomTitleBarHoveredButton.Close => 3

/-- From `CustomTitleBarButtonRects::win32_get_title_bar_button_rects` in
src/main.rs: close is the rightmost `button_width` of the title bar with its
top pushed down by `WIN32_FAKE_SHADOW_HEIGHT`; maximize and minimize shift
left by one button width each, inheriting the remaining fields. -/
def win32_get_title_bar_button_rects (dpi : Nat) (title_bar_rect : Rect) :
    CustomTitleBarButtonRects :=
  let button_width := win32_dpi_scale 47 dpi
  let close : Rect :=
    { title_bar_rect with
      top := title_bar_rect.top + WIN32_FAKE_SHADOW_HEIGHT,
      left := title_bar_rect.right - button_width }
  let maximize : Rect :=
    { close with
      left := close.left - button_width,
      right := close.right - button_width }
  let minimize : Rect :=
    { maximize with
      left := maximize.left - button_width,
      right := maximize.right - button_width }
  { close := close, maximize := maximize, minimize := minimize }

/-- Win32 `PtInRect` semantics: the point is in the rectangle when
`left ≤ x < right` and `top ≤ y < bottom`. -/
def ptInRect (r : Rect) (p : Point) : Prop :=
  r.left ≤ p.x ∧ p.x < r.right ∧ r.top ≤ p.y ∧ p.y < r.bottom

instance (r : Rect) (p : Point) : Decidable (ptInRect r p) := by
  unfold ptInRect
  infer_instance

/-- The Rust `matches!(is_maximized, Ok(true))` test applied to the result of
`win32_window_is_maximized`: true exactly on a successful query reporting
`SW_SHOWMAXIMIZED`; a failed query counts as false (the error is swallowed by
the pattern). -/
def matchesOkTrue : Except Unit Bool → Bool
  | Except.ok true => true
  | _ => false

/-- Win32 hit-test codes used by the window procedure. -/
def HTNOWHERE : Nat := 0

def HTCLIENT : Nat := 1

def HTCAPTION : Nat := 2

def HTMAXBUTTON : Nat := 9

def HTLEFT : Nat := 10

def HTRIGHT : Nat := 11

def HTTOP : Nat := 12

def HTTOPLEFT : Nat := 13

def HTTOPRIGHT : Nat := 14

def HTBOTTOM : Nat := 15

def HTBOTTOMLEFT : Nat := 16

def HTBOTTOMRIGHT : Nat := 17

/-- The first match of the `WM_NCHITTEST` arm in src/main.rs: the default
classifications that are returned unchanged (nowhere and every resize
edge/corner). -/
def isPassthroughHit (hit : Nat) : Bool :=
  hit == HTNOWHERE || hit == HTRIGHT || hit == HTLEFT || hit == HTTOPLEFT ||
    hit == HTTOP || hit == HTTOPRIGHT || hit == HTBOTTOMRIGHT || hit == HTBOTTOM ||
    hit == HTBOTTOMLEFT

/-- The `WM_NCHITTEST` arm of `window_proc` in src/main.rs, on the path where
the title-bar rectangle query succeeds.  `defHit` is `DefWindowProcW`'s
classification, `cursor` the cursor position already converted to client
coordinates, `frame_y` and `padding` the `SM_CYFRAME` / `SM_CXPADDEDBORDER`
metrics, `title_bar_rect` the queried title-bar rectangle. -/
def ncHitTest (hover : CustomTitleBarHoveredButton) (defHit : Nat) (cursor : Point)
    (frame_y padding : Int) (title_bar_rect : Rect) : Nat :=
  if isPassthroughHit defHit then defHit
  else if hover = CustomTitleBarHoveredButton.Maximize then HTMAXBUTTON
  else if cursor.y > 0 ∧ cursor.y < frame_y + padding then HTTOP
  else if cursor.y < title_bar_rect.bottom then HTCAPTION
  else HTCLIENT

/-- The `new_hovered_button` computation of the `WM_NCMOUSEMOVE` arm in
src/main.rs: containment tested in the order minimize, maximize, close. -/
def newHoveredButton (button_rects : CustomTitleBarButtonRects) (cursor : Point) :
    CustomTitleBarHoveredButton :=
  if ptInRect button_rects.minimize cursor then CustomTitleBarHoveredButton.Minimize
  else if ptInRect button_rects.maximize cursor then CustomTitleBarHoveredButton.Maximize
  else if ptInRect button_rects.close cursor then CustomTitleBarHoveredButton.Close
  else CustomTitleBarHoveredButton.None

/-- The observable effect of a mouse-move arm: the hover state after the
message and the rectangles passed to `InvalidateRect`, in call order. -/
structure MouseMoveEffect where
  newState : CustomTitleBarHoveredButton
  invalidated : List Rect
deriving Repr, DecidableEq

/-- The `WM_NCMOUSEMOVE` arm of `window_proc` in src/main.rs, on the path
where the cursor and title-bar queries succeed: recompute the button
rectangles, determine the newly hovered button, and when it differs from the
stored state invalidate close, minimize, maximize (in that order) and store
the new state. -/
def ncMouseMove (stored : CustomTitleBarHoveredButton) (dpi : Nat)
    (title_bar_rect : Rect) (cursor : Point) : MouseMoveEffect :=
  let button_rects := win32_get_title_bar_button_rects dpi title_bar_rect
  let new_hovered_button := newHoveredButton button_rects cursor
  if stored ≠ new_hovered_button then
    { newState := new_hovered_button,
      invalidated := [button_rects.close, button_rects.minimize, button_rects.maximize] }
  else
    { newState := stored, invalidated := [] }

/-- The `WM_MOUSEMOVE` arm of `window_proc` in src/main.rs: when the stored
hover state is not None, invalidate the title-bar rectangle and reset the
state to None; otherwise do nothing. -/
def mouseMove (stored : CustomTitleBarHoveredButton) (title_bar_rect : Rect) :
    MouseMoveEffect :=
  if stored ≠ CustomTitleBarHoveredButton.None then
    { newState := CustomTitleBarHoveredButton.None, invalidated := [title_bar_rect] }
  else
    { newState := stored, invalidated := [] }

/-- Outcome of the `WM_NCMOUSEMOVE` arm including its failure path: when the
title-bar rectangle query fails the arm logs the error and returns
`DefWindowProcW` without touching state (`loggedDefault`). -/
inductive MouseMoveOutcome where
  | handled : MouseMoveEffect → MouseMoveOutcome
  | loggedDefault : MouseMoveOutcome
deriving Repr, DecidableEq

/-- The `WM_NCMOUSEMOVE` arm of `window_proc` with its title-bar-query
failure path from src/main.rs. -/
def ncMouseMoveHandler (stored : CustomTitleBarHoveredButton) (dpi : Nat)
    (title_bar_query : Except Unit Rect) (cursor : Point) : MouseMoveOutcome :=
  match title_bar_query with
  | Except.error _ => MouseMoveOutcome.loggedDefault
  | Except.ok title_bar_rect =>
      MouseMoveOutcome.handled (ncMouseMove stored dpi title_bar_rect cursor)

/-- The `WM_NCCALCSIZE` arm of `window_proc` in src/main.rs, on the branch
with `w_param != 0` and a non-null params pointer: shrink right/left by
`frame_x + padding`, shrink bottom by `frame_y + padding`, and push top down
by `padding` exactly when `win32_window_is_maximized` returns `Ok(true)` (a
failed placement query is logged and leaves top unchanged). -/
def ncCalcSize (requested_client_rect : Rect) (frame_x frame_y padding : Int)
    (is_maximized : Except Unit Bool) : Rect :=
  let r :=
    { requested_client_rect with
      right := requested_client_rect.right - (frame_x + padding),
      left := requested_client_rect.left + (frame_x + padding),
      bottom := requested_client_rect.bottom - (frame_y + padding) }
  if matchesOkTrue is_maximized then { r with top := r.top + padding } else r

/-- The window commands the button-release arm can issue. -/
inductive WindowCommand where
  | PostClose
  | ShowMinimize
  | ShowMaximize
  | ShowRestore
deriving Repr, DecidableEq

/-- What a non-client button press/release arm does with the message:
issue a window command (returning 0), return 0 with no command (suppressing
default handling), or delegate to `DefWindowProcW`. -/
inductive HandlerResult where
  | command : WindowCommand → HandlerResult
  | suppressed
  | defaultHandling
deriving Repr, DecidableEq

/-- The `WM_NCLBUTTONDOWN` arm of `window_proc` in src/main.rs: while a
button is hovered, return 0 (suppressing default handling, issuing nothing);
otherwise delegate to `DefWindowProcW`. -/
def ncLButtonDown (hover : CustomTitleBarHoveredButton) : HandlerResult :=
  if hover ≠ CustomTitleBarHoveredButton.None then HandlerResult.suppressed
  else HandlerResult.defaultHandling

/-- The `WM_NCLBUTTONUP` arm of `window_proc` in src/main.rs.  `is_maximized`
is the `win32_window_is_maximized` placement query; `post_close_ok` is whether
the `PostMessageW(WM_CLOSE)` call succeeds (on failure the source logs and
falls through to `DefWindowProcW`).  The Maximize branch tests the placement
query with `matches!(.., Ok(true))`, so a failed query is silently treated as
not maximized. -/
def ncLButtonUp (hover : CustomTitleBarHoveredButton) (is_maximized : Except Unit Bool)
    (post_close_ok : Bool) : HandlerResult :=
  match hover with
  | CustomTitleBarHoveredButton.Close =>
      if post_close_ok then HandlerResult.command WindowCommand.PostClose
      else HandlerResult.defaultHandling
  | CustomTitleBarHoveredButton.Minimize => HandlerResult.command WindowCommand.ShowMinimize
  | CustomTitleBarHoveredButton.Maximize =>
      HandlerResult.command
        (if matchesOkTrue is_maximized then WindowCommand.ShowRestore
         else WindowCommand.ShowMaximize)
  | CustomTitleBarHoveredButton.None => HandlerResult.defaultHandling

/-- The maximize-icon portion of the `WM_PAINT` arm in src/main.rs: the number
of square outlines drawn.  Two (the offset square plus the base square) when
the placement query returns `Ok(true)`; one otherwise — including a failed
query, which the `matches!` pattern swallows without logging, skipping only
the dependent second-square drawing. -/
def paintMaximizeIconSquares (is_maximized : Except Unit Bool) : Nat :=
  if matchesOkTrue is_maximized then 2 else 1

/-- C1 counterexample: for client rect (0,0,800,600) at DPI 96 with theme
caption height 32 the title bar rect is (0,0,800,34) as claimed, but the close
button rect is not (753,0,800,34): its top is 1, not 0 (the code pushes every
button's top down by the 1px shadow band). -/
theorem C1_layout_counterexample :
    win32_titlebar_rect ⟨0, 0, 800, 600⟩ 96 32 = ⟨0, 0, 800, 34⟩ ∧
    (win32_get_title_bar_button_rects 96 ⟨0, 0, 800, 34⟩).close ≠ ⟨753, 0, 800, 34⟩ ∧
    (win32_get_title_bar_button_rects 96 ⟨0, 0, 800, 34⟩).close.top = 1 := by
  decide

/-- C1 (amended): for client rect (0,0,800,600) at DPI 96 with theme caption
height 32 the layout calculator produces the title bar rect (0,0,800,34) of
height 34, button width 47, close rect (753,1,800,34), maximize rect
(706,1,753,34) and minimize rect (659,1,706,34): every button's top is offset
by 1px to skip the shadow band. -/
theorem C1_layout_scenario :
    win32_titlebar_rect ⟨0, 0, 800, 600⟩ 96 32 = ⟨0, 0, 800, 34⟩ ∧
    (win32_titlebar_rect ⟨0, 0, 800, 600⟩ 96 32).bottom -
        (win32_titlebar_rect ⟨0, 0, 800, 600⟩ 96 32).top = 34 ∧
    win32_dpi_scale 47 96 = 47 ∧
    win32_get_title_bar_button_rects 96 (win32_titlebar_rect ⟨0, 0, 800, 600⟩ 96 32) =
      ⟨⟨753, 1, 800, 34⟩, ⟨706, 1, 753, 34⟩, ⟨659, 1, 706, 34⟩⟩ := by
  decide

/-- C2 counterexample: with host classification HTCLIENT, hover state None,
frame height 4 and padding 4 (top band of height 8) and title bar rect
(0,0,800,34), the point with client y = 0 lies in the claimed top band of
height 8 yet the resolver returns HTCAPTION, not HTTOP (the code requires
y strictly above 0); and the point with y = -3, which lies in neither the
band nor the title bar's 0..34 row range, also returns HTCAPTION rather than
HTCLIENT (the code only tests y below the title bar bottom). -/
theorem C2_top_band_counterexample :
    ncHitTest CustomTitleBarHoveredButton.None HTCLIENT ⟨100, 0⟩ 4 4 ⟨0, 0, 800, 34⟩ =
      HTCAPTION ∧
    HTCAPTION ≠ HTTOP ∧
    ncHitTest CustomTitleBarHoveredButton.None HTCLIENT ⟨100, -3⟩ 4 4 ⟨0, 0, 800, 34⟩ =
      HTCAPTION ∧
    HTCAPTION ≠ HTCLIENT := by
  decide

/-- C2 (amended): for every cursor position whose host classification is not
in the passthrough set (nowhere or a resize edge/corner) and with hover state
not Maximize, the resolver returns the top-resize-edge code exactly when
0 < y < frame height + padding, otherwise the caption code when y is below
the title bar rectangle's bottom, and otherwise the client code. -/
theorem C2_hit_test_bands (hover : CustomTitleBarHoveredButton) (defHit : Nat)
    (cursor : Point) (frame_y padding : Int) (tb : Rect)
    (hpass : isPassthroughHit defHit = false)
    (hmax : hover ≠ CustomTitleBarHoveredButton.Maximize) :
    ncHitTest hover defHit cursor frame_y padding tb =
      if cursor.y > 0 ∧ cursor.y < frame_y + padding then HTTOP
      else if cursor.y < tb.bottom then HTCAPTION
      else HTCLIENT := by
  simp [ncHitTest, hpass, hmax]

/-- C2 witness: at hover None, host classification HTCLIENT, client point
(5,3), frame height 4, padding 4 and title bar rect (0,0,800,34) the
hypotheses hold and the resolver returns HTTOP. -/
theorem C2_hit_test_bands_witness :
    isPassthroughHit HTCLIENT = false ∧
    ncHitTest CustomTitleBarHoveredButton.None HTCLIENT ⟨5, 3⟩ 4 4 ⟨0, 0, 800, 34⟩ =
      HTTOP :=
  ⟨by decide,
    (C2_hit_test_bands CustomTitleBarHoveredButton.None HTCLIENT ⟨5, 3⟩ 4 4
        ⟨0, 0, 800, 34⟩ (by decide) (by decide)).trans (by decide)⟩

/-- C3: on a non-client pointer move the resulting hover state is the button
computed by containment in priority order minimize, maximize, close, none;
the three button rectangles are invalidated exactly when that button differs
from the stored state; and on a client-area pointer move the title bar
rectangle is invalidated and the state reset to None exactly when the stored
state is not None. -/
theorem C3_hover_tracking (stored : CustomTitleBarHoveredButton) (dpi : Nat)
    (title_bar_rect : Rect) (cursor : Point) :
    (ncMouseMove stored dpi title_bar_rect cursor).newState =
      newHoveredButton (win32_get_title_bar_button_rects dpi title_bar_rect) cursor ∧
    (ncMouseMove stored dpi title_bar_rect cursor).invalidated =
      (if newHoveredButton (win32_get_title_bar_button_rects dpi title_bar_rect) cursor =
          stored then ([] : List Rect)
       else [(win32_get_title_bar_button_rects dpi title_bar_rect).close,
             (win32_get_title_bar_button_rects dpi title_bar_rect).minimize,
             (win32_get_title_bar_button_rects dpi title_bar_rect).maximize]) ∧
    mouseMove stored title_bar_rect =
      (if stored = CustomTitleBarHoveredButton.None then
        { newState := stored, invalidated := [] }
       else
        { newState := CustomTitleBarHoveredButton.None,
          invalidated := [title_bar_rect] }) := by
  refine ⟨?_, ?_, ?_⟩
  · by_cases h :
      stored = newHoveredButton (win32_get_title_bar_button_rects dpi title_bar_rect) cursor <;>
      simp [ncMouseMove, h]
  · by_cases h :
      stored = newHoveredButton (win32_get_title_bar_button_rects dpi title_bar_rect) cursor <;>
      simp [ncMouseMove, h, eq_comm]
  · by_cases h : stored = CustomTitleBarHoveredButton.None <;> simp [mouseMove, h]

/-- C4: on a size-negotiation message with a valid payload and a successful
placement query, the proposed client rectangle's left edge grows by
frame_x + padding, its right edge shrinks by frame_x + padding, its bottom
shrinks by frame_y + padding, and its top grows by padding exactly when the
window is maximized; no other change is made. -/
theorem C4_nc_calc_size (rect : Rect) (frame_x frame_y padding : Int) (m : Bool) :
    ncCalcSize rect frame_x frame_y padding (Except.ok m) =
      ⟨rect.left + (frame_x + padding),
        if m then rect.top + padding else rect.top,
        rect.right - (frame_x + padding),
        rect.bottom - (frame_y + padding)⟩ := by
  cases m <;> rfl

/-- C5: on non-client button release, hover Close issues a close request,
Minimize a minimize request, Maximize a maximize request when not maximized
and a restore request when maximized, and hover None falls through to
default handling; a non-client button press with any hovered button is
suppressed without issuing a command, while a press with hover None falls
through to default handling. -/
theorem C5_command_dispatch (m : Bool) :
    ncLButtonUp CustomTitleBarHoveredButton.Close (Except.ok m) true =
      HandlerResult.command WindowCommand.PostClose ∧
    ncLButtonUp CustomTitleBarHoveredButton.Minimize (Except.ok m) true =
      HandlerResult.command WindowCommand.ShowMinimize ∧
    ncLButtonUp CustomTitleBarHoveredButton.Maximize (Except.ok m) true =
      HandlerResult.command
        (if m then WindowCommand.ShowRestore else WindowCommand.ShowMaximize) ∧
    ncLButtonUp CustomTitleBarHoveredButton.None (Except.ok m) true =
      HandlerResult.defaultHandling ∧
    ncLButtonDown CustomTitleBarHoveredButton.Minimize = HandlerResult.suppressed ∧
    ncLButtonDown CustomTitleBarHoveredButton.Maximize = HandlerResult.suppressed ∧
    ncLButtonDown CustomTitleBarHoveredButton.Close = HandlerResult.suppressed ∧
    ncLButtonDown CustomTitleBarHoveredButton.None = HandlerResult.defaultHandling := by
  cases m <;> decide

/-- C6: for every title bar rectangle of width at least three scaled button
widths and every DPI, the three button rectangles have equal width
scale(47, dpi), are contiguous (maximize's right edge is close's left edge and
minimize's right edge is maximize's left edge), are ordered right-to-left as
close, maximize, minimize within the title bar, share the same vertical
extent, have close's right edge equal to the title bar's right edge, and are
pairwise non-overlapping under PtInRect containment. -/
theorem C6_button_invariants (tb : Rect) (dpi : Nat)
    (hw : tb.right - tb.left ≥ 3 * win32_dpi_scale 47 dpi) :
    ((win32_get_title_bar_button_rects dpi tb).close.right -
        (win32_get_title_bar_button_rects dpi tb).close.left = win32_dpi_scale 47 dpi ∧
      (win32_get_title_bar_button_rects dpi tb).maximize.right -
        (win32_get_title_bar_button_rects dpi tb).maximize.left = win32_dpi_scale 47 dpi ∧
      (win32_get_title_bar_button_rects dpi tb).minimize.right -
        (win32_get_title_bar_button_rects dpi tb).minimize.left = win32_dpi_scale 47 dpi) ∧
    ((win32_get_title_bar_button_rects dpi tb).maximize.right =
        (win32_get_title_bar_button_rects dpi tb).close.left ∧
      (win32_get_title_bar_button_rects dpi tb).minimize.right =
        (win32_get_title_bar_button_rects dpi tb).maximize.left) ∧
    ((win32_get_title_bar_button_rects dpi tb).minimize.left ≤
        (win32_get_title_bar_button_rects dpi tb).maximize.left ∧
      (win32_get_title_bar_button_rects dpi tb).maximize.left ≤
        (win32_get_title_bar_button_rects dpi tb).close.left ∧
      tb.left ≤ (win32_get_title_bar_button_rects dpi tb).minimize.left) ∧
    ((win32_get_title_bar_button_rects dpi tb).close.top =
        (win32_get_title_bar_button_rects dpi tb).maximize.top ∧
      (win32_get_title_bar_button_rects dpi tb).maximize.top =
        (win32_get_title_bar_button_rects dpi tb).minimize.top ∧
      (win32_get_title_bar_button_rects dpi tb).close.bottom =
        (win32_get_title_bar_button_rects dpi tb).maximize.bottom ∧
      (win32_get_title_bar_button_rects dpi tb).maximize.bottom =
        (win32_get_title_bar_button_rects dpi tb).minimize.bottom) ∧
    (win32_get_title_bar_button_rects dpi tb).close.right = tb.right ∧
    (∀ p : Point, ¬(ptInRect (win32_get_title_bar_button_rects dpi tb).close p ∧
        ptInRect (win32_get_title_bar_button_rects dpi tb).maximize p)) ∧
    (∀ p : Point, ¬(ptInRect (win32_get_title_bar_button_rects dpi tb).close p ∧
        ptInRect (win32_get_title_bar_button_rects dpi tb).minimize p)) ∧
    (∀ p : Point, ¬(ptInRect (win32_get_title_bar_button_rects dpi tb).maximize p ∧
        ptInRect (win32_get_title_bar_button_rects dpi tb).minimize p)) := by
  have hw0 : 0 ≤ win32_dpi_scale 47 dpi :=
    Int.tdiv_nonneg (mul_nonneg (by norm_num) (Int.natCast_nonneg dpi)) (by norm_num)
  refine ⟨⟨?_, ?_, ?_⟩, ⟨?_, ?_⟩, ⟨?_, ?_, ?_⟩, ⟨?_, ?_, ?_, ?_⟩, ?_, ?_, ?_, ?_⟩ <;>
    first
      | (simp only [win32_get_title_bar_button_rects]; done)
      | (simp only [win32_get_title_bar_button_rects]; omega)
      | (intro p hp
         obtain ⟨h1, h2⟩ := hp
         simp only [ptInRect, win32_get_title_bar_button_rects] at h1 h2
         omega)

/-- C6 witness: the title bar rect (0,0,800,34) at DPI 96 has width
800 ≥ 3 × 47, and the close rectangle's right edge equals the title bar's
right edge. -/
theorem C6_button_invariants_witness :
    (Rect.mk 0 0 800 34).right - (Rect.mk 0 0 800 34).left ≥
      3 * win32_dpi_scale 47 96 ∧
    (win32_get_title_bar_button_rects 96 ⟨0, 0, 800, 34⟩).close.right =
      (Rect.mk 0 0 800 34).right :=
  ⟨by decide, (C6_button_invariants ⟨0, 0, 800, 34⟩ 96 (by decide)).2.2.2.2.1⟩

/-- C7: for every cursor position whose host classification is not in the
passthrough set, when the stored hover state is Maximize and the point lies
inside the maximize button rectangle, the resolver returns the
maximize-button code (indeed it does so for any such point, in particular
points inside the synthetic top resize band). -/
theorem C7_maximize_sticky (defHit : Nat) (cursor : Point) (frame_y padding : Int)
    (tb : Rect) (dpi : Nat)
    (hpass : isPassthroughHit defHit = false)
    (_hin : ptInRect (win32_get_title_bar_button_rects dpi tb).maximize cursor) :
    ncHitTest CustomTitleBarHoveredButton.Maximize defHit cursor frame_y padding tb =
      HTMAXBUTTON := by
  simp [ncHitTest, hpass]

/-- C7 witness: with host classification HTCLIENT, title bar rect
(0,0,800,34) at DPI 96, the point (710,3) lies inside the maximize rectangle
(706,1,753,34) and inside the top resize band 0 < y < 8, and the resolver
returns HTMAXBUTTON. -/
theorem C7_maximize_sticky_witness :
    isPassthroughHit HTCLIENT = false ∧
    ptInRect (win32_get_title_bar_button_rects 96 ⟨0, 0, 800, 34⟩).maximize ⟨710, 3⟩ ∧
    ((3 : Int) > 0 ∧ (3 : Int) < 4 + 4) ∧
    ncHitTest CustomTitleBarHoveredButton.Maximize HTCLIENT ⟨710, 3⟩ 4 4 ⟨0, 0, 800, 34⟩ =
      HTMAXBUTTON :=
  ⟨by decide, by decide, by decide,
    C7_maximize_sticky HTCLIENT ⟨710, 3⟩ 4 4 ⟨0, 0, 800, 34⟩ 96 (by decide) (by decide)⟩

/-- C8 counterexample: at value -1 and DPI 120 the scaler returns -1 while
floor(-1 × 120 / 96) = -2 (Rust's float-to-int cast truncates toward zero);
moreover for value -1 the scaler is not monotone non-decreasing in DPI:
it returns -1 at DPI 96 and -2 at DPI 192. -/
theorem C8_scale_counterexample :
    win32_dpi_scale (-1) 120 = -1 ∧
    Int.fdiv ((-1) * ((120 : Nat) : Int)) 96 = -2 ∧
    win32_dpi_scale (-1) 96 = -1 ∧
    win32_dpi_scale (-1) 192 = -2 := by
  decide

/-- C8 (amended): for every non-negative value and every pair of DPIs whose
products with the value stay within the f32-exact bound 2^24 (where the
source's float arithmetic computes the exact truncated rational, see
`win32_dpi_scale`), the scaler returns floor(value × dpi / 96) (truncation
toward zero agrees with floor on non-negative products), scale(value, 96) =
value when value × 96 is also within the bound, and for fixed non-negative
value the scaler is monotone non-decreasing in DPI. -/
theorem C8_scale_nonneg (v : Int) (dpi dpi2 : Nat) (hv : 0 ≤ v) (hdpi : dpi ≤ dpi2)
    (_hexact : v * (dpi2 : Int) ≤ 2 ^ 24) (_hexact96 : v * 96 ≤ 2 ^ 24) :
    win32_dpi_scale v dpi = Int.fdiv (v * (dpi : Int)) 96 ∧
    win32_dpi_scale v 96 = v ∧
    win32_dpi_scale v dpi ≤ win32_dpi_scale v dpi2 := by
  have h0 : (0 : Int) ≤ v * (dpi : Int) := mul_nonneg hv (Int.natCast_nonneg dpi)
  have h0' : (0 : Int) ≤ v * (dpi2 : Int) := mul_nonneg hv (Int.natCast_nonneg dpi2)
  refine ⟨?_, ?_, ?_⟩
  · rw [win32_dpi_scale, Int.tdiv_eq_ediv h0 (by norm_num),
      Int.fdiv_eq_ediv _ (by norm_num)]
  · have h96 : ((96 : Nat) : Int) = 96 := by norm_cast
    rw [win32_dpi_scale, h96]
    exact Int.mul_tdiv_cancel v (by norm_num)
  · rw [win32_dpi_scale, win32_dpi_scale, Int.tdiv_eq_ediv h0 (by norm_num),
      Int.tdiv_eq_ediv h0' (by norm_num)]
    exact Int.ediv_le_ediv (by norm_num)
      (mul_le_mul_of_nonneg_left (by exact_mod_cast hdpi) hv)

/-- C8 witness: at value 3 with DPI 96 and 144 the hypotheses hold (the
products 432 and 288 are far inside the f32-exact bound 2^24), the scaler
equals the floor division, scale(3, 96) = 3, and the value at DPI 96 is at
most the value at DPI 144. -/
theorem C8_scale_nonneg_witness :
    (0 : Int) ≤ 3 ∧ (96 : Nat) ≤ 144 ∧
    (3 : Int) * ((144 : Nat) : Int) ≤ 2 ^ 24 ∧ (3 : Int) * 96 ≤ 2 ^ 24 ∧
    (win32_dpi_scale 3 96 = Int.fdiv (3 * ((96 : Nat) : Int)) 96 ∧
      win32_dpi_scale 3 96 = 3 ∧
      win32_dpi_scale 3 96 ≤ win32_dpi_scale 3 144) :=
  ⟨by decide, by decide, by decide, by decide,
    C8_scale_nonneg 3 96 144 (by decide) (by decide) (by decide) (by decide)⟩

/-- C9 counterexample: when the placement query fails during a non-client
button release with hover state Maximize, the handler issues a maximize
command — it neither falls back to default handling nor skips a drawing
step, and the command issued differs from the restore command a successful
query on a maximized window produces, so the failure changes which window
command is issued. -/
theorem C9_lbuttonup_counterexample :
    ncLButtonUp CustomTitleBarHoveredButton.Maximize (Except.error ()) true =
      HandlerResult.command WindowCommand.ShowMaximize ∧
    ncLButtonUp CustomTitleBarHoveredButton.Maximize (Except.ok true) true =
      HandlerResult.command WindowCommand.ShowRestore ∧
    HandlerResult.command WindowCommand.ShowMaximize ≠ HandlerResult.defaultHandling ∧
    HandlerResult.command WindowCommand.ShowMaximize ≠
      HandlerResult.command WindowCommand.ShowRestore := by
  decide

/-- C9 (amended): host-query failures are non-fatal and handled per site: a
failed title-bar rectangle query on a non-client pointer move is logged and
falls back to default handling; a failed placement query in the paint
handler's maximize icon silently skips only the dependent second-square
drawing; a failed placement query on maximize-button release is silently
treated as not maximized and issues a maximize command (so it can change
which command is issued); and a failed placement query during size
negotiation leaves the rectangle exactly as in the not-maximized case. -/
theorem C9_failure_policy (stored : CustomTitleBarHoveredButton) (dpi : Nat)
    (cursor : Point) (rect : Rect) (frame_x frame_y padding : Int) :
    ncMouseMoveHandler stored dpi (Except.error ()) cursor =
      MouseMoveOutcome.loggedDefault ∧
    paintMaximizeIconSquares (Except.error ()) = 1 ∧
    paintMaximizeIconSquares (Except.ok true) = 2 ∧
    ncLButtonUp CustomTitleBarHoveredButton.Maximize (Except.error ()) true =
      HandlerResult.command WindowCommand.ShowMaximize ∧
    ncCalcSize rect frame_x frame_y padding (Except.error ()) =
      ncCalcSize rect frame_x frame_y padding (Except.ok false) := by
  exact ⟨rfl, rfl, rfl, rfl, rfl⟩

/-- C10: decoding the per-window storage slot is total: 1, 2, 3 decode to
Minimize, Maximize, Close, every other integer (including the initial slot
value 0) decodes to None, and encoding any variant and decoding it back
yields the same variant. -/
theorem C10_hover_decode_total :
    hoveredButtonFromIsize 1 = CustomTitleBarHoveredButton.Minimize ∧
    hoveredButtonFromIsize 2 = CustomTitleBarHoveredButton.Maximize ∧
    hoveredButtonFromIsize 3 = CustomTitleBarHoveredButton.Close ∧
    hoveredButtonFromIsize 0 = CustomTitleBarHoveredButton.None ∧
    (∀ n : Int, n = 1 ∨ n = 2 ∨ n = 3 ∨
      hoveredButtonFromIsize n = CustomTitleBarHoveredButton.None) ∧
    (∀ b : CustomTitleBarHoveredButton,
      hoveredButtonFromIsize (hoveredButtonToIsize b) = b) := by
  refine ⟨by decide, by decide, by decide, by decide, ?_, ?_⟩
  · intro n
    by_cases h1 : n = 1
    · exact Or.inl h1
    by_cases h2 : n = 2
    · exact Or.inr (Or.inl h2)
    by_cases h3 : n = 3
    · exact Or.inr (Or.inr (Or.inl h3))
    · exact Or.inr (Or.inr (Or.inr (by simp [hoveredButtonFromIsize, h1, h2, h3])))
  · intro b
    cases b <;> rfl

end Win32
